import Mathlib

/-!
Shallow embedding of the reservation composite microservice (`main.py`):
the catalog gateway (`catalog_get_item`, `catalog_set_status`), the
reservation store (a single `reservations` table, modelled as a list of
records), the reservation endpoints (`create_reservation`,
`update_reservation`, `delete_reservation`, `expire_expired_reservations`)
and the expiry worker (`_expire_single_reservation`).

Modelling conventions:
* UUIDs and timestamps are `Nat`; the hold TTL is in the same time unit
  as timestamps (the code uses `timedelta(minutes=HOLD_TTL_MINUTES)`).
* Every remote I/O outcome (identity lookup, catalog GET, catalog PUT,
  pub/sub publish) is an explicit input to the function that performs it,
  so the functions are pure and total.
* `raise HTTPException(status_code=c, detail=d)` becomes
  `Except.error (HErr.http c d)`; detail strings keep the static part of
  the message, with interpolated values elided.
* A pub/sub publish failure is not an `HTTPException`; it is the
  distinguished error `HErr.pubsub`.
-/

/-- Errors that escape an endpoint: an `HTTPException` with a status code
and detail message, or a pub/sub publish failure (any non-HTTP exception
raised by `notify_reservation`). -/
inductive HErr where
  | http (status : Nat) (detail : String)
  | pubsub
deriving DecidableEq

instance {ε α : Type} [DecidableEq ε] [DecidableEq α] : DecidableEq (Except ε α) :=
  fun a b =>
    match a, b with
    | .ok x, .ok y =>
      if h : x = y then .isTrue (by rw [h]) else .isFalse (by simp [h])
    | .error x, .error y =>
      if h : x = y then .isTrue (by rw [h]) else .isFalse (by simp [h])
    | .ok _, .error _ => .isFalse (by simp)
    | .error _, .ok _ => .isFalse (by simp)

/-- Catalog item body, as consumed by `catalog_set_status`
(schema: name, description, price, category, status). -/
structure CatalogItem where
  name : String
  description : String
  price : Int
  category : String
  status : String
deriving DecidableEq

/-- Outcome of the remote `GET /items/{id}` performed by
`catalog_get_item`: connection failure/timeout, 404, any other error
response, or a 2xx carrying an optional ETag header and a JSON body. -/
inductive FetchResult where
  | unreachable
  | notFound
  | otherError
  | ok (etag : Option String) (body : CatalogItem)
deriving DecidableEq

/-- Outcome of the remote `PUT /items/{id}` performed by
`catalog_set_status`: connection failure/timeout, a 409 or 412
precondition rejection, any other error response, or success. -/
inductive PutResult where
  | unreachable
  | precondFailed
  | otherError
  | ok
deriving DecidableEq

/-- Outcome of the remote `GET /users/{id}` performed by
`identity_get_user`. -/
inductive IdentityResult where
  | unreachable
  | notFound
  | otherError
  | ok
deriving DecidableEq

/-- `identity_get_user`: validate the user exists in the Identity
service; 502 on connection failure or non-404 error, 404 if unknown. -/
def identity_get_user (r : IdentityResult) : Except HErr Unit :=
  match r with
  | .unreachable => .error (.http 502 "Identity service unreachable")
  | .notFound => .error (.http 404 "User not found in Identity Service")
  | .otherError => .error (.http 502 "Identity service error")
  | .ok => .ok ()

/-- `catalog_get_item`: `GET /items/{id}`, returning the ETag header and
body on success; 502 on connection failure or non-404 error, 404 if the
item is unknown. -/
def catalog_get_item (r : FetchResult) : Except HErr (Option String × CatalogItem) :=
  match r with
  | .unreachable => .error (.http 502 "Catalog unreachable")
  | .notFound => .error (.http 404 "Item not found in Catalog")
  | .otherError => .error (.http 502 "Catalog error")
  | .ok etag body => .ok (etag, body)

/-- Python string truthiness on an optional string, as used by
`if current_etag:` — `None` and the empty string are both falsy. -/
def pyTruthyStr (s : Option String) : Bool :=
  match s with
  | none => false
  | some v => v ≠ ""

/-- Python `a or b` on two optional strings, as used by
`x_item_etag or cat["etag"]` — falls through when `a` is `None` or
the empty string. -/
def pyOrStr (a b : Option String) : Option String :=
  if pyTruthyStr a then a else b

/-- Python substring membership `needle in hay` on strings. The guard in
`create_reservation` is `item_status not in ("available")`, and
`("available")` is the string `"available"` (a parenthesised string, not
a tuple), so `in` is the substring test. -/
def strSubstr (needle hay : String) : Bool :=
  (List.range (hay.data.length + 1)).any (fun i => needle.data.isPrefixOf (hay.data.drop i))

/-- The conditional `PUT /items/{id}` request issued by
`catalog_set_status`: the `If-Match` header (present only when the
freshly observed ETag is truthy) and the full-resource payload. -/
structure PutReq where
  ifMatch : Option String
  payload : CatalogItem
deriving DecidableEq

/-- Result of `catalog_set_status`: the conditional write that was
issued (if the function got that far), and the returned value or raised
`HTTPException`. The 2xx response body is not used by any caller, so
success carries `Unit`. -/
structure SetStatusResult where
  putReq : Option PutReq
  result : Except HErr Unit
deriving DecidableEq

/-- `catalog_set_status(item_id, etag, from_status, to_status)`:
re-fetch the item (`catalog_get_item`); 409 if the current status is not
`from_status`; 409 if a caller ETag and the fresh ETag are both present
and differ; then `PUT` the full payload with only the status changed,
with `If-Match` set to the fresh ETag when truthy; 409 if the remote
answers 409/412, 502 on connection failure or other error.
`setFetch` and `put` are the outcomes of the two remote calls. -/
def catalog_set_status (setFetch : FetchResult) (put : PutResult)
    (etag : Option String) (from_status to_status : String) : SetStatusResult :=
  match catalog_get_item setFetch with
  | .error e => { putReq := none, result := .error e }
  | .ok (current_etag, body) =>
    if body.status ≠ from_status then
      { putReq := none, result := .error (.http 409 "Item status mismatch") }
    else if etag.isSome ∧ current_etag.isSome ∧ etag ≠ current_etag then
      { putReq := none, result := .error (.http 409 "Item ETag mismatch (possible concurrent modification)") }
    else
      let payload : CatalogItem :=
        { name := body.name, description := body.description, price := body.price,
          category := body.category, status := to_status }
      let req : PutReq :=
        { ifMatch := if pyTruthyStr current_etag then current_etag else none,
          payload := payload }
      match put with
      | .unreachable => { putReq := some req, result := .error (.http 502 "Catalog unreachable") }
      | .precondFailed => { putReq := some req, result := .error (.http 409 "Item status changed concurrently") }
      | .otherError => { putReq := some req, result := .error (.http 502 "Catalog error") }
      | .ok => { putReq := some req, result := .ok () }

/-- A row of the `reservations` table. -/
structure Reservation where
  reservation_id : Nat
  item_id : Nat
  buyer_id : Nat
  status : String
  hold_expires_at : Nat
  updated_at : Nat
deriving DecidableEq

/-- The `reservations` table. -/
abbrev Store := List Reservation

/-- `SELECT ... FROM reservations WHERE reservation_id = :rid` followed
by `.first()`. -/
def storeFind (s : Store) (rid : Nat) : Option Reservation :=
  s.find? (fun r => r.reservation_id == rid)

/-- `UPDATE reservations SET status = :st, updated_at = :now WHERE
reservation_id = :rid`. -/
def storeUpdateStatus (s : Store) (rid : Nat) (st : String) (now : Nat) : Store :=
  s.map (fun r => if r.reservation_id == rid then { r with status := st, updated_at := now } else r)

/-- `DELETE FROM reservations WHERE reservation_id = :rid`. -/
def storeDelete (s : Store) (rid : Nat) : Store :=
  s.filter (fun r => ¬ r.reservation_id == rid)

/-- `HOLD_TTL_MINUTES = 3`, the TTL actually used
(`expires = now + timedelta(minutes=HOLD_TTL_MINUTES)`). -/
def HOLD_TTL_MINUTES : Nat := 3

/-- `current_user_id()`: identity extraction is stubbed to the constant
`11`. -/
def current_user_id : Nat := 11

/-- The `e.status_code == 409` test in Create's `except HTTPException`
clause (a pub/sub failure is not an `HTTPException` and cannot be
caught there). -/
def isConflict409 (e : HErr) : Bool :=
  match e with
  | .http c _ => c == 409
  | .pubsub => false

/-- Remote-I/O outcomes consumed by one `create_reservation` call, plus
the server-generated values (`uuid4()` and `now_utc()`): the identity
lookup, the `GET` in step 1, the `GET` and `PUT` inside
`catalog_set_status`, and whether the pub/sub publish in
`notify_reservation` succeeds. -/
structure CreateEnv where
  identity : IdentityResult
  fetch : FetchResult
  setFetch : FetchResult
  put : PutResult
  notifyOk : Bool
  rid : Nat
  now : Nat

/-- The row inserted by `create_reservation` step 2: a fresh id, the
requested item, the calling user, status `ACTIVE`,
`hold_expires_at = now + TTL`, `updated_at = now`. -/
def mkRec (env : CreateEnv) (item_id user_id : Nat) : Reservation :=
  { reservation_id := env.rid, item_id := item_id, buyer_id := user_id,
    status := "ACTIVE", hold_expires_at := env.now + HOLD_TTL_MINUTES,
    updated_at := env.now }

/-- `create_reservation(item_id)` (`POST /items/{item_id}/reservations`).
Returns the store after the call together with the 201 body or the
raised error. Steps: (0) validate the user in Identity; (1) `GET` the
item; 409 unless the status passes the guard
`item_status not in ("available")` (a substring test, see `strSubstr`);
if the status is exactly `available`, transition it to `reserved` via
`catalog_set_status`, re-mapping a 409 to a distinct message and
re-raising anything else; (2) insert the local record as ACTIVE inside a
transaction and re-select it, 500 if the select comes back empty;
(3) `notify_reservation`, whose publish failure propagates. -/
def create_reservation (env : CreateEnv) (item_id user_id : Nat)
    (x_item_etag : Option String) (store : Store) : Store × Except HErr Reservation :=
  match identity_get_user env.identity with
  | .error e => (store, .error e)
  | .ok _ =>
    match catalog_get_item env.fetch with
    | .error e => (store, .error e)
    | .ok (catEtag, body) =>
      let etag := pyOrStr x_item_etag catEtag
      let item_status := body.status
      if ¬ strSubstr item_status "available" then
        (store, .error (.http 409 "Item not reservable"))
      else
        let trans : Except HErr Unit :=
          if item_status = "available" then
            match (catalog_set_status env.setFetch env.put etag "available" "reserved").result with
            | .error e =>
              if isConflict409 e then .error (.http 409 "Item was reserved by someone else")
              else .error e
            | .ok _ => .ok ()
          else .ok ()
        match trans with
        | .error e => (store, .error e)
        | .ok _ =>
          let store' : Store := store ++ [mkRec env item_id user_id]
          match storeFind store' env.rid with
          | none => (store', .error (.http 500 "Failed to create reservation"))
          | some row =>
            if env.notifyOk then (store', .ok row)
            else (store', .error .pubsub)

/-- Remote-I/O outcomes consumed by one best-effort relist block
(`catalog_get_item` then, if the item is still `reserved`,
`catalog_set_status`), plus `now_utc()` for the local write. -/
structure RelEnv where
  fetch : FetchResult
  setFetch : FetchResult
  put : PutResult
  now : Nat

/-- The `try` body shared by `update_reservation`,
`delete_reservation` and `_expire_single_reservation`: `GET` the item
and, if its status is `reserved`, transition it `reserved → available`
passing the just-fetched ETag. -/
def relistAttempt (env : RelEnv) (item_id : Nat) : Except HErr Unit :=
  match catalog_get_item env.fetch with
  | .error e => .error e
  | .ok (catEtag, body) =>
    if body.status = "reserved" then
      (catalog_set_status env.setFetch env.put catEtag "reserved" "available").result
    else .ok ()

/-- `update_reservation(reservation_id, update)`
(`PATCH /reservations/{reservation_id}`): 404 if the row is missing, 403
if the caller is not the buyer, 409 if the row is not ACTIVE; otherwise
best-effort relist (`except HTTPException: pass` — every outcome of
`relistAttempt` is swallowed), then set the status to `INACTIVE`
(ignoring `update.status`) and return the re-selected row. -/
def update_reservation (env : RelEnv) (reservation_id : Nat)
    (update_status : String) (user_id : Nat) (store : Store) :
    Store × Except HErr Reservation :=
  match storeFind store reservation_id with
  | none => (store, .error (.http 404 "Reservation not found"))
  | some row =>
    if row.buyer_id ≠ user_id then
      (store, .error (.http 403 "You are not allowed to modify this reservation"))
    else if row.status ≠ "ACTIVE" then
      (store, .error (.http 409 "Reservation not Active"))
    else
      match relistAttempt env row.item_id with
      | _ =>
        let new_status := "INACTIVE"
        let store' := storeUpdateStatus store reservation_id new_status env.now
        match storeFind store' reservation_id with
        | none => (store', .error (.http 500 "Failed to update reservation"))
        | some updated_row => (store', .ok updated_row)

/-- `delete_reservation(reservation_id)`
(`DELETE /reservations/{reservation_id}`): 404 if the row is missing,
403 if the caller is not the buyer; otherwise best-effort relist (every
outcome swallowed) and hard-delete the row. -/
def delete_reservation (env : RelEnv) (reservation_id : Nat)
    (user_id : Nat) (store : Store) : Store × Except HErr Unit :=
  match storeFind store reservation_id with
  | none => (store, .error (.http 404 "Reservation not found"))
  | some row =>
    if row.buyer_id ≠ user_id then
      (store, .error (.http 403 "You are not allowed to modify this reservation"))
    else
      match relistAttempt env row.item_id with
      | _ => (storeDelete store reservation_id, .ok ())

/-- `_expire_single_reservation(row)`: the expiry worker. Best-effort
relist (any `HTTPException` swallowed), then unconditionally mark the
reservation `INACTIVE` — never a delete. -/
def _expire_single_reservation (env : RelEnv) (row : Reservation)
    (store : Store) : Store :=
  match relistAttempt env row.item_id with
  | _ => storeUpdateStatus store row.reservation_id "INACTIVE" env.now

/-- The snapshot scan of `expire_expired_reservations`:
`SELECT ... WHERE status = ACTIVE AND hold_expires_at < :now`. -/
def scanLapsedActive (store : Store) (now : Nat) : List Reservation :=
  store.filter (fun r => r.status == "ACTIVE" && decide (r.hold_expires_at < now))

/-- The 202 body of `POST /reservations/expire-batch`, extended with the
list of rows submitted to `EXPIRY_EXECUTOR` (the call returns without
waiting for any of them). -/
structure ExpireBatchResponse where
  message : String
  scheduled : Nat
  dispatched : List Reservation
deriving DecidableEq

/-- `expire_expired_reservations()` (`POST /reservations/expire-batch`):
scan once for lapsed ACTIVE rows; if none, answer `scheduled = 0` with
no dispatch; otherwise submit one `_expire_single_reservation` task per
row and answer `scheduled = count` immediately. -/
def expire_expired_reservations (store : Store) (now : Nat) : ExpireBatchResponse :=
  let rows := scanLapsedActive store now
  let count := rows.length
  if count = 0 then
    { message := "No expired ACTIVE reservations found", scheduled := 0, dispatched := [] }
  else
    { message := "Expiry job accepted", scheduled := count, dispatched := rows }

/-- `POST /items/{item_id}/reservations` with the FastAPI dependency
`user_id = Depends(current_user_id)` resolved. -/
def create_endpoint (env : CreateEnv) (item_id : Nat)
    (x_item_etag : Option String) (store : Store) : Store × Except HErr Reservation :=
  create_reservation env item_id current_user_id x_item_etag store

/-- `PATCH /reservations/{reservation_id}` with
`user_id = Depends(current_user_id)` resolved. -/
def patch_endpoint (env : RelEnv) (reservation_id : Nat)
    (update_status : String) (store : Store) : Store × Except HErr Reservation :=
  update_reservation env reservation_id update_status current_user_id store

/-- `DELETE /reservations/{reservation_id}` with
`user_id = Depends(current_user_id)` resolved. -/
def delete_endpoint (env : RelEnv) (reservation_id : Nat)
    (store : Store) : Store × Except HErr Unit :=
  delete_reservation env reservation_id current_user_id store

/-- The HTTP status of a raised `HTTPException`, if the outcome is one. -/
def errCode {α : Type} (r : Except HErr α) : Option Nat :=
  match r with
  | .error (.http c _) => some c
  | .error .pubsub => none
  | .ok _ => none

/-- A mutating operation of the core, with all its remote-I/O outcomes:
Create, PATCH, DELETE, or one expiry-worker task. The batch endpoint
itself only scans and dispatches; its store effects are the dispatched
`expireOp`s. -/
inductive Op where
  | createOp (env : CreateEnv) (item_id user_id : Nat) (x : Option String)
  | patchOp (env : RelEnv) (rid : Nat) (us : String) (user_id : Nat)
  | deleteOp (env : RelEnv) (rid : Nat) (user_id : Nat)
  | expireOp (env : RelEnv) (row : Reservation)

/-- The store after running one operation. -/
def applyOp (op : Op) (s : Store) : Store :=
  match op with
  | .createOp env i u x => (create_reservation env i u x s).1
  | .patchOp env rid us u => (update_reservation env rid us u s).1
  | .deleteOp env rid u => (delete_reservation env rid u s).1
  | .expireOp env row => _expire_single_reservation env row s

/-- Freshness of the generated `uuid4()` for a Create: the new id does
not collide with any existing row (guaranteed in the code by uuid4
generation and the primary key on `reservation_id`). Other operations
generate no id. -/
def opFresh (op : Op) (s : Store) : Prop :=
  match op with
  | .createOp env _ _ _ => ∀ r ∈ s, r.reservation_id ≠ env.rid
  | _ => True

/-!  Concrete scenario constants, used to instantiate theorems with
hypotheses at particular inputs. -/

/-- A catalog item with the given status and fixed descriptive fields. -/
def itemWith (st : String) : CatalogItem :=
  { name := "Bike", description := "A bike", price := 100, category := "sports",
    status := st }

/-- A Create environment in which every remote call succeeds: the
catalog observes the given status with ETag v1. -/
def happyEnv (st : String) : CreateEnv :=
  { identity := .ok, fetch := .ok (some "v1") (itemWith st),
    setFetch := .ok (some "v1") (itemWith st), put := .ok,
    notifyOk := true, rid := 1, now := 10 }

/-- A Create environment in which both remote calls inside
`catalog_set_status` would fail: any attempted catalog transition
aborts with a 502. -/
def noTransEnv (st : String) : CreateEnv :=
  { happyEnv st with setFetch := .unreachable, put := .unreachable }

/-- A Create environment in which everything succeeds except the
pub/sub publish. -/
def notifyFailEnv : CreateEnv :=
  { happyEnv "available" with notifyOk := false }

/-- A Create environment in which the catalog transition's conditional
`PUT` is rejected with a 412 precondition failure. -/
def envTransFail : CreateEnv :=
  { happyEnv "available" with put := .precondFailed }

/-- A relist environment in which every remote call fails. -/
def relFailEnv : RelEnv :=
  { fetch := .unreachable, setFetch := .unreachable, put := .unreachable, now := 99 }

/-- An ACTIVE reservation row owned by buyer 11. -/
def recActive : Reservation :=
  { reservation_id := 5, item_id := 42, buyer_id := 11, status := "ACTIVE",
    hold_expires_at := 20, updated_at := 3 }

/-- An INACTIVE reservation row owned by buyer 11. -/
def recInactive : Reservation :=
  { reservation_id := 5, item_id := 42, buyer_id := 11, status := "INACTIVE",
    hold_expires_at := 20, updated_at := 3 }

/-- An ACTIVE reservation row owned by buyer 9 (not the stubbed caller). -/
def recOther : Reservation :=
  { reservation_id := 6, item_id := 43, buyer_id := 9, status := "ACTIVE",
    hold_expires_at := 20, updated_at := 3 }

/-!  Helper lemmas about the store primitives and the shape of each
endpoint's effect on the store. -/

theorem storeFind_append_none (s : Store) (rid : Nat) (r : Reservation)
    (h : storeFind s rid = none) :
    storeFind (s ++ [r]) rid = if r.reservation_id == rid then some r else none := by
  induction s with
  | nil =>
    cases hr : (r.reservation_id == rid) <;> simp [storeFind, List.find?, hr]
  | cons a t ih =>
    cases ha : (a.reservation_id == rid) with
    | true => simp [storeFind, List.find?, ha] at h
    | false =>
      simp only [storeFind, List.find?, ha, List.cons_append] at h ⊢
      exact ih h

theorem storeFind_update (s : Store) (rid : Nat) (st : String) (now : Nat) :
    storeFind (storeUpdateStatus s rid st now) rid =
      (storeFind s rid).map (fun r => { r with status := st, updated_at := now }) := by
  induction s with
  | nil => rfl
  | cons a t ih =>
    cases ha : (a.reservation_id == rid) with
    | true =>
      simp [storeFind, storeUpdateStatus, List.find?, ha]
    | false =>
      simp only [storeFind, storeUpdateStatus, List.map_cons, List.find?, ha, if_neg] at ih ⊢
      simpa [ha] using ih

theorem create_store_shape (env : CreateEnv) (item_id user_id : Nat)
    (x : Option String) (s : Store) :
    (create_reservation env item_id user_id x s).1 = s ∨
      (create_reservation env item_id user_id x s).1 = s ++ [mkRec env item_id user_id] := by
  unfold create_reservation
  dsimp only
  repeat' split
  all_goals simp

theorem update_store_shape (env : RelEnv) (rid : Nat) (us : String)
    (user_id : Nat) (s : Store) :
    (update_reservation env rid us user_id s).1 = s ∨
      (update_reservation env rid us user_id s).1 = storeUpdateStatus s rid "INACTIVE" env.now := by
  unfold update_reservation
  dsimp only
  repeat' split
  all_goals simp

theorem delete_store_shape (env : RelEnv) (rid : Nat) (user_id : Nat) (s : Store) :
    (delete_reservation env rid user_id s).1 = s ∨
      (delete_reservation env rid user_id s).1 = storeDelete s rid := by
  unfold delete_reservation
  dsimp only
  repeat' split
  all_goals simp

theorem storeUpdateStatus_mem_or (s : Store) (rid : Nat) (st : String) (now : Nat)
    (r' : Reservation) (h : r' ∈ storeUpdateStatus s rid st now) :
    r'.status = st ∨ r' ∈ s := by
  unfold storeUpdateStatus at h
  rw [List.mem_map] at h
  obtain ⟨a, ha, hfa⟩ := h
  by_cases hb : (a.reservation_id == rid) = true
  · left
    rw [← hfa]
    simp [hb]
  · right
    rw [← hfa]
    simpa [hb] using ha

theorem storeUpdateStatus_ids (s : Store) (rid : Nat) (st : String) (now : Nat) :
    (storeUpdateStatus s rid st now).map (fun r => r.reservation_id) =
      s.map (fun r => r.reservation_id) := by
  induction s with
  | nil => rfl
  | cons a t ih =>
    simp only [storeUpdateStatus, List.map_cons, List.map_map] at ih ⊢
    rw [ih]
    by_cases hb : (a.reservation_id == rid) = true <;> simp [hb]

theorem create_ok_inversion (env : CreateEnv) (item_id user_id : Nat)
    (x : Option String) (s : Store) (rec : Reservation)
    (hfresh : storeFind s env.rid = none)
    (h : (create_reservation env item_id user_id x s).2 = .ok rec) :
    rec = mkRec env item_id user_id := by
  have hfind : storeFind (s ++ [mkRec env item_id user_id]) env.rid =
      some (mkRec env item_id user_id) := by
    rw [storeFind_append_none s env.rid _ hfresh]
    simp [mkRec]
  unfold create_reservation at h
  dsimp only at h
  repeat' split at h
  all_goals simp_all

theorem update_success (env : RelEnv) (rid : Nat) (us : String) (user_id : Nat)
    (s : Store) (r : Reservation)
    (hfind : storeFind s rid = some r) (hb : r.buyer_id = user_id)
    (hs : r.status = "ACTIVE") :
    update_reservation env rid us user_id s =
      (storeUpdateStatus s rid "INACTIVE" env.now,
       .ok { r with status := "INACTIVE", updated_at := env.now }) := by
  unfold update_reservation
  dsimp only
  rw [hfind]
  dsimp only
  rw [if_neg (by simp [hb]), if_neg (by simp [hs])]
  rw [storeFind_update, hfind]
  rfl

/-!  Claim theorems. -/

/-- Claim C1 (evaluation at the failing input): the Create guard is
`item_status not in ("available")`, where `("available")` is the string
`"available"`, so the membership test is a substring test. A catalog
status that is a proper substring of `available`, such as `avail`, is
therefore NOT rejected with 409: the call succeeds with 201, inserts an
ACTIVE local record, and never attempts the catalog transition (here
both remote outcomes inside `catalog_set_status` are `unreachable`,
which would have aborted the call had the transition been attempted).
The values named by the claim (`reserved`, `sold`) are rejected as it
states. -/
theorem C1_substring_status_bypasses_conflict :
    create_reservation (noTransEnv "avail") 42 11 none [] =
      ([mkRec (noTransEnv "avail") 42 11], .ok (mkRec (noTransEnv "avail") 42 11))
    ∧ (itemWith "avail").status ≠ "available"
    ∧ (create_reservation (noTransEnv "reserved") 42 11 none []).2 =
        .error (.http 409 "Item not reservable")
    ∧ (create_reservation (noTransEnv "sold") 42 11 none []).2 =
        .error (.http 409 "Item not reservable") := by
  decide

/-- Claim C2: whenever Create reaches the catalog transition (identity
lookup succeeded, the fresh `GET` observed status `available`) and
`catalog_set_status` fails with any error, the whole call aborts with an
error and the store is unchanged — no local record is inserted. -/
theorem C2_create_aborts_when_transition_fails
    (env : CreateEnv) (item_id user_id : Nat) (x : Option String) (s : Store)
    (catEtag : Option String) (body : CatalogItem) (e : HErr)
    (hid : identity_get_user env.identity = .ok ())
    (hcat : catalog_get_item env.fetch = .ok (catEtag, body))
    (hstatus : body.status = "available")
    (hset : (catalog_set_status env.setFetch env.put (pyOrStr x catEtag)
        "available" "reserved").result = .error e) :
    (create_reservation env item_id user_id x s).1 = s ∧
      ∃ e', (create_reservation env item_id user_id x s).2 = .error e' := by
  unfold create_reservation
  dsimp only
  rw [hid, hcat]
  dsimp only
  rw [hstatus]
  rw [if_neg (by decide), if_pos rfl]
  rw [hset]
  dsimp only
  cases hI : isConflict409 e <;> simp [hI]

/-- Claim C2 witness: with the conditional `PUT` rejected by a
precondition failure, Create returns an error and the empty store stays
empty. -/
theorem C2_witness :
    (create_reservation envTransFail 42 7 none []).1 = [] ∧
      ∃ e', (create_reservation envTransFail 42 7 none []).2 = .error e' :=
  C2_create_aborts_when_transition_fails envTransFail 42 7 none []
    (some "v1") (itemWith "available")
    (.http 409 "Item status changed concurrently")
    (by decide) (by decide) (by decide) (by decide)

/-- Claim C3: every successful Create returns the freshly inserted
record: status ACTIVE, buyer the calling user, the requested item, and
`hold_expires_at` exactly the creation timestamp plus the configured
TTL (with `updated_at` the creation timestamp itself). -/
theorem C3_create_success_fields
    (env : CreateEnv) (item_id user_id : Nat) (x : Option String) (s : Store)
    (rec : Reservation)
    (hfresh : storeFind s env.rid = none)
    (hok : (create_reservation env item_id user_id x s).2 = .ok rec) :
    rec.status = "ACTIVE" ∧ rec.buyer_id = user_id ∧ rec.item_id = item_id ∧
      rec.hold_expires_at = env.now + HOLD_TTL_MINUTES ∧ rec.updated_at = env.now := by
  have h := create_ok_inversion env item_id user_id x s rec hfresh hok
  subst h
  simp [mkRec]

/-- Claim C3 witness: the happy-path Create for item 42 by buyer 7. -/
theorem C3_witness :
    (mkRec (happyEnv "available") 42 7).status = "ACTIVE" ∧
      (mkRec (happyEnv "available") 42 7).buyer_id = 7 ∧
      (mkRec (happyEnv "available") 42 7).item_id = 42 ∧
      (mkRec (happyEnv "available") 42 7).hold_expires_at =
        (happyEnv "available").now + HOLD_TTL_MINUTES ∧
      (mkRec (happyEnv "available") 42 7).updated_at = (happyEnv "available").now :=
  C3_create_success_fields (happyEnv "available") 42 7 none []
    (mkRec (happyEnv "available") 42 7) (by decide) (by decide)

/-- Claim C4 counterexample: the catalog answers the fresh `GET` with no
ETag header and status `available`; the caller supplies version token
v1. The claim requires a Conflict (the supplied token does not match the
freshly observed one — there is none) and an If-Match precondition on
the write; the code instead skips the token comparison (it only fires
when both tokens are present), issues the `PUT` with no If-Match header,
and succeeds. -/
theorem C4_counterexample :
    catalog_set_status (.ok none (itemWith "available")) .ok (some "v1")
        "available" "reserved" =
      { putReq := some { ifMatch := none, payload := itemWith "reserved" },
        result := .ok () } := by
  decide

/-- Claim C4 (amended): `catalog_set_status` re-fetches the item fresh
and (1) propagates any failure of that fetch; (2) fails 409 when the
freshly observed status differs from `fromStatus`; (3) fails 409 when a
caller-supplied token and a freshly observed token are both present and
differ; (4) otherwise issues the conditional write with `If-Match` equal
to the freshly observed token whenever a non-empty one was observed, and
surfaces 409 when the remote rejects the write with 409 or 412. -/
theorem C4_transition_fresh_checks
    (setFetch : FetchResult) (put : PutResult) (etag : Option String)
    (fromS toS : String) :
    (∀ e, catalog_get_item setFetch = .error e →
       catalog_set_status setFetch put etag fromS toS =
         { putReq := none, result := .error e })
    ∧ (∀ tokOpt body, setFetch = .ok tokOpt body → body.status ≠ fromS →
       catalog_set_status setFetch put etag fromS toS =
         { putReq := none, result := .error (.http 409 "Item status mismatch") })
    ∧ (∀ tok body e, setFetch = .ok (some tok) body → body.status = fromS →
       etag = some e → e ≠ tok →
       catalog_set_status setFetch put etag fromS toS =
         { putReq := none,
           result := .error (.http 409 "Item ETag mismatch (possible concurrent modification)") })
    ∧ (∀ tok body, setFetch = .ok (some tok) body → body.status = fromS →
       (etag = none ∨ etag = some tok) → tok ≠ "" →
       (catalog_set_status setFetch put etag fromS toS).putReq =
           some { ifMatch := some tok,
                  payload := { name := body.name, description := body.description,
                               price := body.price, category := body.category,
                               status := toS } }
         ∧ (put = .precondFailed →
             (catalog_set_status setFetch put etag fromS toS).result =
               .error (.http 409 "Item status changed concurrently"))) := by
  refine ⟨?_, ?_, ?_, ?_⟩
  · intro e he
    unfold catalog_set_status
    rw [he]
  · intro tokOpt body hsf hst
    subst hsf
    unfold catalog_set_status catalog_get_item
    dsimp only
    rw [if_pos hst]
  · intro tok body e hsf hst he hne
    subst hsf
    subst he
    unfold catalog_set_status catalog_get_item
    dsimp only
    rw [if_neg (by simp [hst]), if_pos (by simp [hne])]
  · intro tok body hsf hst hor hne
    subst hsf
    unfold catalog_set_status catalog_get_item
    dsimp only
    rw [if_neg (by simp [hst]), if_neg (by rcases hor with h | h <;> simp [h])]
    have htr : pyTruthyStr (some tok) = true := by simp [pyTruthyStr, hne]
    cases put <;> simp [htr]

/-- Claim C4 amended-theorem witness: concrete instantiation of each
conjunct — fetch failure propagates, drifted status conflicts, token
mismatch conflicts, and the write carries the fresh token and surfaces
a 412 as 409. -/
theorem C4_witness :
    (catalog_set_status .notFound .ok none "available" "reserved" =
      { putReq := none, result := .error (.http 404 "Item not found in Catalog") })
    ∧ (catalog_set_status (.ok (some "v1") (itemWith "sold")) .ok none
        "available" "reserved" =
      { putReq := none, result := .error (.http 409 "Item status mismatch") })
    ∧ (catalog_set_status (.ok (some "v2") (itemWith "available")) .ok (some "v1")
        "available" "reserved" =
      { putReq := none,
        result := .error (.http 409 "Item ETag mismatch (possible concurrent modification)") })
    ∧ ((catalog_set_status (.ok (some "v1") (itemWith "available")) .precondFailed
          (some "v1") "available" "reserved").putReq =
        some { ifMatch := some "v1", payload := itemWith "reserved" }
      ∧ (catalog_set_status (.ok (some "v1") (itemWith "available")) .precondFailed
          (some "v1") "available" "reserved").result =
        .error (.http 409 "Item status changed concurrently")) := by
  refine ⟨?_, ?_, ?_, ?_, ?_⟩
  · exact (C4_transition_fresh_checks .notFound .ok none "available" "reserved").1
      _ (by decide)
  · exact (C4_transition_fresh_checks (.ok (some "v1") (itemWith "sold")) .ok none
      "available" "reserved").2.1 (some "v1") (itemWith "sold") (by decide) (by decide)
  · exact (C4_transition_fresh_checks (.ok (some "v2") (itemWith "available")) .ok
      (some "v1") "available" "reserved").2.2.1 "v2" (itemWith "available") "v1"
      (by decide) (by decide) (by decide) (by decide)
  · exact ((C4_transition_fresh_checks (.ok (some "v1") (itemWith "available"))
      .precondFailed (some "v1") "available" "reserved").2.2.2 "v1"
      (itemWith "available") (by decide) (by decide) (Or.inr (by decide)) (by decide)).1
  · exact ((C4_transition_fresh_checks (.ok (some "v1") (itemWith "available"))
      .precondFailed (some "v1") "available" "reserved").2.2.2 "v1"
      (itemWith "available") (by decide) (by decide) (Or.inr (by decide)) (by decide)).2
      (by decide)

/-- Claim C5 counterexample: with the catalog transition and the local
insert both succeeded and the pub/sub publish failing, Create does NOT
return the created record: the publish exception propagates (the caller
gets an error, not a 201), even though the record was committed. -/
theorem C5_counterexample :
    create_reservation notifyFailEnv 42 11 none [] =
      ([mkRec notifyFailEnv 42 11], .error .pubsub) := by
  decide

/-- Claim C5 (amended): when the catalog transition and the local insert
have both succeeded and the notification publish fails, the whole call
fails — the publish exception propagates to the caller (who does not
receive the 201 body), while the local record remains committed. -/
theorem C5_notify_failure_fails_call
    (env : CreateEnv) (item_id user_id : Nat) (x : Option String) (s : Store)
    (catEtag : Option String) (body : CatalogItem)
    (hid : identity_get_user env.identity = .ok ())
    (hcat : catalog_get_item env.fetch = .ok (catEtag, body))
    (hstatus : body.status = "available")
    (hset : (catalog_set_status env.setFetch env.put (pyOrStr x catEtag)
        "available" "reserved").result = .ok ())
    (hfresh : storeFind s env.rid = none)
    (hnot : env.notifyOk = false) :
    create_reservation env item_id user_id x s =
      (s ++ [mkRec env item_id user_id], .error .pubsub) := by
  unfold create_reservation
  dsimp only
  rw [hid, hcat]
  dsimp only
  rw [hstatus]
  rw [if_neg (by decide), if_pos rfl, hset]
  dsimp only
  rw [storeFind_append_none s env.rid _ hfresh, if_pos (by simp [mkRec])]
  dsimp only
  rw [hnot]
  simp

/-- Claim C5 amended-theorem witness: the happy-path Create for buyer 7
with a failing publish. -/
theorem C5_witness :
    create_reservation notifyFailEnv 42 7 none [] =
      ([mkRec notifyFailEnv 42 7], .error .pubsub) :=
  C5_notify_failure_fails_call notifyFailEnv 42 7 none [] (some "v1")
    (itemWith "available") (by decide) (by decide) (by decide) (by decide)
    (by decide) (by decide)

theorem storeUpdateStatus_mem_key (s : Store) (rid : Nat) (st : String) (now : Nat)
    (r' : Reservation) (h : r' ∈ storeUpdateStatus s rid st now)
    (hid : r'.reservation_id = rid) : r'.status = st := by
  unfold storeUpdateStatus at h
  rw [List.mem_map] at h
  obtain ⟨a, ha, hfa⟩ := h
  by_cases hb : (a.reservation_id == rid) = true
  · rw [← hfa]
    simp [hb]
  · exfalso
    have hra : r' = a := by rw [← hfa]; simp [hb]
    subst hra
    exact hb (beq_iff_eq.mpr hid)

theorem expire_single_eq (env : RelEnv) (row : Reservation) (s : Store) :
    _expire_single_reservation env row s =
      storeUpdateStatus s row.reservation_id "INACTIVE" env.now := rfl

/-- Claim C6: on both release paths of an existing ACTIVE record — the
explicit PATCH and the expiry worker — the best-effort catalog relist's
outcome is universally quantified (any failure is swallowed), yet the
local record is marked INACTIVE in every execution: the PATCH still
answers 200 with the INACTIVE record, and the expiry worker updates the
row in place, never deleting any row. -/
theorem C6_release_best_effort_swallowed :
    (∀ (env : RelEnv) (rid : Nat) (us : String) (user_id : Nat) (s : Store)
        (r : Reservation),
      storeFind s rid = some r → r.buyer_id = user_id → r.status = "ACTIVE" →
        (∀ r' ∈ (update_reservation env rid us user_id s).1,
           r'.reservation_id = rid → r'.status = "INACTIVE")
        ∧ ∃ rec, (update_reservation env rid us user_id s).2 = .ok rec ∧
            rec.status = "INACTIVE")
    ∧ (∀ (env : RelEnv) (row : Reservation) (s : Store),
        (∀ r' ∈ _expire_single_reservation env row s,
           r'.reservation_id = row.reservation_id → r'.status = "INACTIVE")
        ∧ (_expire_single_reservation env row s).map (fun r => r.reservation_id) =
            s.map (fun r => r.reservation_id)) := by
  constructor
  · intro env rid us user_id s r hfind hb hs
    rw [update_success env rid us user_id s r hfind hb hs]
    constructor
    · intro r' hmem hid
      exact storeUpdateStatus_mem_key s rid "INACTIVE" env.now r' hmem hid
    · exact ⟨_, rfl, rfl⟩
  · intro env row s
    rw [expire_single_eq]
    exact ⟨fun r' hmem hid =>
        storeUpdateStatus_mem_key s row.reservation_id "INACTIVE" env.now r' hmem hid,
      storeUpdateStatus_ids s row.reservation_id "INACTIVE" env.now⟩

/-- Claim C6 witness: buyer 11 releases their ACTIVE reservation while
every catalog call fails; the record is still INACTIVE afterwards on
both paths, and the expiry path deletes nothing. -/
theorem C6_witness :
    ((∀ r' ∈ (update_reservation relFailEnv 5 "ACTIVE" 11 [recActive]).1,
        r'.reservation_id = 5 → r'.status = "INACTIVE")
      ∧ ∃ rec, (update_reservation relFailEnv 5 "ACTIVE" 11 [recActive]).2 =
          .ok rec ∧ rec.status = "INACTIVE")
    ∧ ((∀ r' ∈ _expire_single_reservation relFailEnv recActive [recActive],
         r'.reservation_id = recActive.reservation_id → r'.status = "INACTIVE")
      ∧ (_expire_single_reservation relFailEnv recActive [recActive]).map
          (fun r => r.reservation_id) = [recActive].map (fun r => r.reservation_id)) :=
  ⟨C6_release_best_effort_swallowed.1 relFailEnv 5 "ACTIVE" 11 [recActive] recActive
      (by decide) (by decide) (by decide),
   C6_release_best_effort_swallowed.2 relFailEnv recActive [recActive]⟩

/-- Claim C7: `PATCH /reservations/{id}` answers 404 when no row with
that id exists, 403 when the row's buyer is not the caller, 409 when the
row is not ACTIVE, and otherwise succeeds with the row set to INACTIVE —
for every status value carried in the request body (never read). -/
theorem C7_patch_dispatch (env : RelEnv) (s : Store) (rid : Nat) (us : String)
    (user_id : Nat) :
    (storeFind s rid = none →
      (update_reservation env rid us user_id s).2 =
        .error (.http 404 "Reservation not found"))
    ∧ (∀ r, storeFind s rid = some r → r.buyer_id ≠ user_id →
        (update_reservation env rid us user_id s).2 =
          .error (.http 403 "You are not allowed to modify this reservation"))
    ∧ (∀ r, storeFind s rid = some r → r.buyer_id = user_id → r.status ≠ "ACTIVE" →
        (update_reservation env rid us user_id s).2 =
          .error (.http 409 "Reservation not Active"))
    ∧ (∀ r, storeFind s rid = some r → r.buyer_id = user_id → r.status = "ACTIVE" →
        (update_reservation env rid us user_id s).2 =
          .ok { r with status := "INACTIVE", updated_at := env.now }) := by
  refine ⟨?_, ?_, ?_, ?_⟩
  · intro h
    unfold update_reservation
    dsimp only
    rw [h]
  · intro r hr hb
    unfold update_reservation
    dsimp only
    rw [hr]
    dsimp only
    rw [if_pos hb]
  · intro r hr hb hs
    unfold update_reservation
    dsimp only
    rw [hr]
    dsimp only
    rw [if_neg (by simp [hb]), if_pos hs]
  · intro r hr hb hs
    rw [update_success env rid us user_id s r hr hb hs]

/-- Claim C7 witness: the four dispatch outcomes at concrete stores. -/
theorem C7_witness :
    ((update_reservation relFailEnv 99 "Inactive" 11 [recActive]).2 =
        .error (.http 404 "Reservation not found"))
    ∧ ((update_reservation relFailEnv 6 "Inactive" 11 [recOther]).2 =
        .error (.http 403 "You are not allowed to modify this reservation"))
    ∧ ((update_reservation relFailEnv 5 "Inactive" 11 [recInactive]).2 =
        .error (.http 409 "Reservation not Active"))
    ∧ ((update_reservation relFailEnv 5 "Inactive" 11 [recActive]).2 =
        .ok { recActive with status := "INACTIVE", updated_at := relFailEnv.now }) :=
  ⟨(C7_patch_dispatch relFailEnv [recActive] 99 "Inactive" 11).1 (by decide),
   (C7_patch_dispatch relFailEnv [recOther] 6 "Inactive" 11).2.1 recOther
     (by decide) (by decide),
   (C7_patch_dispatch relFailEnv [recInactive] 5 "Inactive" 11).2.2.1 recInactive
     (by decide) (by decide) (by decide),
   (C7_patch_dispatch relFailEnv [recActive] 5 "Inactive" 11).2.2.2 recActive
     (by decide) (by decide) (by decide)⟩

/-- Claim C8: the expire-batch endpoint reports `scheduled` equal to the
size of the snapshot scan of lapsed ACTIVE rows, dispatches exactly the
scanned rows (one task per row, none when the scan is empty), and its
response carries no task results — it answers as soon as dispatch is
done. -/
theorem C8_expire_batch_schedules_scan (store : Store) (now : Nat) :
    (expire_expired_reservations store now).scheduled =
        (scanLapsedActive store now).length
    ∧ (expire_expired_reservations store now).dispatched =
        scanLapsedActive store now
    ∧ ((expire_expired_reservations store now).scheduled = 0 ↔
        scanLapsedActive store now = []) := by
  unfold expire_expired_reservations
  dsimp only
  by_cases h : (scanLapsedActive store now).length = 0
  · rw [if_pos h]
    have hnil : scanLapsedActive store now = [] := List.length_eq_zero.mp h
    simp [hnil]
  · rw [if_neg h]
    exact ⟨rfl, rfl, List.length_eq_zero⟩

/-- Claim C9: INACTIVE is terminal. For any single operation of the core
(Create, PATCH, DELETE, expiry-worker task) with any remote outcomes,
if every record carrying a given id is INACTIVE (and a Create's fresh
uuid does not collide with an existing row), then after the operation
every record still carrying that id is INACTIVE — a record once INACTIVE
stays INACTIVE or is deleted, and no store state reachable by these
operations ever flips it back to ACTIVE. -/
theorem C9_inactive_terminal (op : Op) (s : Store) (id : Nat)
    (hfresh : opFresh op s)
    (hex : ∃ r ∈ s, r.reservation_id = id)
    (hinact : ∀ r ∈ s, r.reservation_id = id → r.status = "INACTIVE") :
    ∀ r' ∈ applyOp op s, r'.reservation_id = id → r'.status = "INACTIVE" := by
  cases op with
  | createOp env i u x =>
    intro r' hmem hid
    dsimp only [applyOp] at hmem
    rcases create_store_shape env i u x s with h | h
    · rw [h] at hmem
      exact hinact r' hmem hid
    · rw [h] at hmem
      rcases List.mem_append.mp hmem with hm | hm
      · exact hinact r' hm hid
      · exfalso
        have hr' : r' = mkRec env i u := by simpa using hm
        subst hr'
        obtain ⟨r0, hr0, hr0id⟩ := hex
        have henv : env.rid = id := by rw [← hid]; rfl
        exact hfresh r0 hr0 (hr0id.trans henv.symm)
  | patchOp env rid us u =>
    intro r' hmem hid
    dsimp only [applyOp] at hmem
    rcases update_store_shape env rid us u s with h | h
    · rw [h] at hmem
      exact hinact r' hmem hid
    · rw [h] at hmem
      rcases storeUpdateStatus_mem_or s rid "INACTIVE" env.now r' hmem with h2 | h2
      · exact h2
      · exact hinact r' h2 hid
  | deleteOp env rid u =>
    intro r' hmem hid
    dsimp only [applyOp] at hmem
    rcases delete_store_shape env rid u s with h | h
    · rw [h] at hmem
      exact hinact r' hmem hid
    · rw [h] at hmem
      have hs : r' ∈ s := by
        unfold storeDelete at hmem
        exact (List.mem_filter.mp hmem).1
      exact hinact r' hs hid
  | expireOp env row =>
    intro r' hmem hid
    dsimp only [applyOp] at hmem
    rw [expire_single_eq] at hmem
    rcases storeUpdateStatus_mem_or s row.reservation_id "INACTIVE" env.now r' hmem
      with h2 | h2
    · exact h2
    · exact hinact r' h2 hid

/-- Claim C9 witness: running an expiry-worker task over a store whose
only record (id 5) is INACTIVE leaves the touched record INACTIVE. -/
theorem C9_witness :
    ({ recInactive with updated_at := 99 } : Reservation).status = "INACTIVE" :=
  C9_inactive_terminal (.expireOp relFailEnv recInactive) [recInactive] 5
    trivial (by decide) (by decide) { recInactive with updated_at := 99 }
    (by decide) (by decide)

theorem update_err403 (env : RelEnv) (rid : Nat) (us : String) (user_id : Nat)
    (s : Store) (r : Reservation)
    (hr : storeFind s rid = some r) (hb : r.buyer_id ≠ user_id) :
    (update_reservation env rid us user_id s).2 =
      .error (.http 403 "You are not allowed to modify this reservation") := by
  unfold update_reservation
  dsimp only
  rw [hr]
  dsimp only
  rw [if_pos hb]

theorem update_err409 (env : RelEnv) (rid : Nat) (us : String) (user_id : Nat)
    (s : Store) (r : Reservation)
    (hr : storeFind s rid = some r) (hb : r.buyer_id = user_id)
    (hs : r.status ≠ "ACTIVE") :
    (update_reservation env rid us user_id s).2 =
      .error (.http 409 "Reservation not Active") := by
  unfold update_reservation
  dsimp only
  rw [hr]
  dsimp only
  rw [if_neg (by simp [hb]), if_pos hs]

theorem delete_err403 (env : RelEnv) (rid : Nat) (user_id : Nat)
    (s : Store) (r : Reservation)
    (hr : storeFind s rid = some r) (hb : r.buyer_id ≠ user_id) :
    (delete_reservation env rid user_id s).2 =
      .error (.http 403 "You are not allowed to modify this reservation") := by
  unfold delete_reservation
  dsimp only
  rw [hr]
  dsimp only
  rw [if_pos hb]

theorem delete_ok (env : RelEnv) (rid : Nat) (user_id : Nat)
    (s : Store) (r : Reservation)
    (hr : storeFind s rid = some r) (hb : r.buyer_id = user_id) :
    (delete_reservation env rid user_id s).2 = .ok () := by
  unfold delete_reservation
  dsimp only
  rw [hr]
  dsimp only
  rw [if_neg (by simp [hb])]

/-- Claim C10: the identity dependency is stubbed to the constant 11, so
every record a Create inserts has `buyer_id = 11`, and the ownership
check on PATCH and DELETE passes exactly when the stored record's
`buyer_id` equals 11 (a 403 is raised exactly when it differs),
independent of who issued the request. -/
theorem C10_stubbed_identity :
    current_user_id = 11
    ∧ (∀ (env : CreateEnv) (item_id : Nat) (x : Option String) (s : Store),
        (create_endpoint env item_id x s).1 = s ∨
          ∃ rec, (create_endpoint env item_id x s).1 = s ++ [rec] ∧
            rec.buyer_id = 11)
    ∧ (∀ (env : RelEnv) (rid : Nat) (us : String) (s : Store) (r : Reservation),
        storeFind s rid = some r →
          (errCode (patch_endpoint env rid us s).2 = some 403 ↔ r.buyer_id ≠ 11))
    ∧ (∀ (env : RelEnv) (rid : Nat) (s : Store) (r : Reservation),
        storeFind s rid = some r →
          (errCode (delete_endpoint env rid s).2 = some 403 ↔ r.buyer_id ≠ 11)) := by
  refine ⟨rfl, ?_, ?_, ?_⟩
  · intro env item_id x s
    unfold create_endpoint
    rcases create_store_shape env item_id current_user_id x s with h | h
    · exact Or.inl h
    · exact Or.inr ⟨mkRec env item_id current_user_id, h, rfl⟩
  · intro env rid us s r hr
    unfold patch_endpoint
    constructor
    · intro h403
      by_contra hb
      by_cases hs : r.status = "ACTIVE"
      · rw [update_success env rid us current_user_id s r hr
          (by simpa [current_user_id] using hb) hs] at h403
        simp [errCode] at h403
      · rw [update_err409 env rid us current_user_id s r hr
          (by simpa [current_user_id] using hb) hs] at h403
        simp [errCode] at h403
    · intro hb
      rw [update_err403 env rid us current_user_id s r hr
        (by simpa [current_user_id] using hb)]
      rfl
  · intro env rid s r hr
    unfold delete_endpoint
    constructor
    · intro h403
      by_contra hb
      rw [delete_ok env rid current_user_id s r hr
        (by simpa [current_user_id] using hb)] at h403
      simp [errCode] at h403
    · intro hb
      rw [delete_err403 env rid current_user_id s r hr
        (by simpa [current_user_id] using hb)]
      rfl

/-- Claim C10 witness: the ownership iff at concrete stores — buyer 9's
record yields 403 under the stubbed caller, buyer 11's does not. -/
theorem C10_witness :
    (errCode (patch_endpoint relFailEnv 6 "Inactive" [recOther]).2 = some 403 ↔
      recOther.buyer_id ≠ 11)
    ∧ (errCode (delete_endpoint relFailEnv 5 [recActive]).2 = some 403 ↔
      recActive.buyer_id ≠ 11) :=
  ⟨C10_stubbed_identity.2.2.1 relFailEnv 6 "Inactive" [recOther] recOther (by decide),
   C10_stubbed_identity.2.2.2 relFailEnv 5 [recActive] recActive (by decide)⟩
